import Mathlib

/-!
Verification of the Checkpoint Orchestrator of the ticketless parking
system (edge server).  The definitions below are a shallow embedding of
the Python sources:

* `ParkingDatabase`, `get_active_session`, `register_entry`,
  `complete_exit` embed the SQLite session ledger of
  `src/ticketless_parking_system/edge/edge_db.py` (the copy inside
  `edge/server.py` is identical in behaviour).  A database is its list
  of rows plus the AUTOINCREMENT counter; timestamps are abstract
  `Nat` ticks passed in by the caller, standing for `_now_iso()`.
* `ParkingLotTracker` and its operations embed
  `src/ticketless_parking_system/edge/parkinglot_tracker.py`.
* `checkpoint_handler` embeds the orchestrator of
  `src/ticketless_parking_system/edge/server.py`; remote calls are
  parameterised by a `CloudEnv` of outcomes, and an uncaught exception
  is reflected as `raised := true` with the barrier never commanded.
* `open_barrier` / `handle_checkpoint` embed the barrier gateway and
  orchestrator of `src/ticketless_parking_system/edge/server_localTest.py`.
-/

/-- One row of the `parking_sessions` table. -/
structure SessionRow where
  id : Nat
  plate : String
  carParkId : String
  entryTime : Nat
  exitTime : Option Nat
  status : String
  deriving DecidableEq

/-- The ledger state: the table rows (in insertion order), the next
AUTOINCREMENT id, and the facility this database serves. -/
structure ParkingDatabase where
  carParkId : String
  rows : List SessionRow
  nextId : Nat
  deriving DecidableEq

/-- A freshly initialised database (`init_db` on an empty file);
SQLite AUTOINCREMENT starts at 1. -/
def initDB (carParkId : String) : ParkingDatabase :=
  { carParkId := carParkId, rows := [], nextId := 1 }

/-- The WHERE clause `plate = ? AND car_park_id = ? AND status = 'inside'`. -/
def isActiveRow (carParkId plate : String) (r : SessionRow) : Bool :=
  r.plate == plate && r.carParkId == carParkId && r.status == "inside"

/-- Number of `'inside'` rows for a plate in this car park. -/
def countInside (db : ParkingDatabase) (plate : String) : Nat :=
  (db.rows.filter (isActiveRow db.carParkId plate)).length

/-- `ORDER BY entry_time DESC LIMIT 1`: a row of maximal entry time
(among equal times SQLite's choice is unspecified; we keep the later
inserted row). -/
def mostRecent : List SessionRow → Option SessionRow
  | [] => none
  | r :: rs =>
    match mostRecent rs with
    | none => some r
    | some b => if b.entryTime < r.entryTime then some r else some b

/-- `ParkingDatabase.get_active_session`: the most recent `'inside'`
session for this plate in this car park, or `none`. -/
def get_active_session (db : ParkingDatabase) (plate : String) : Option SessionRow :=
  mostRecent (db.rows.filter (isActiveRow db.carParkId plate))

/-- `ParkingDatabase.register_entry`: insert a new `'inside'` row, but
only if there is no active session yet (otherwise log and return). -/
def register_entry (db : ParkingDatabase) (plate : String) (now : Nat) : ParkingDatabase :=
  if (get_active_session db plate).isSome then db
  else
    { db with
      rows := db.rows ++
        [{ id := db.nextId, plate := plate, carParkId := db.carParkId,
           entryTime := now, exitTime := none, status := "inside" }],
      nextId := db.nextId + 1 }

/-- `ParkingDatabase.complete_exit`: mark the most recent `'inside'`
session completed.  The returned `Bool` is the observable
`cur.rowcount ≠ 0` on which the code branches for its log message
(`false` = "No active session found ... to complete"). -/
def complete_exit (db : ParkingDatabase) (plate : String) (now : Nat) :
    ParkingDatabase × Bool :=
  match get_active_session db plate with
  | none => (db, false)
  | some row =>
    ({ db with
       rows := db.rows.map fun r =>
         if r.id = row.id then
           { r with exitTime := some now, status := "completed" }
         else r }, true)

/-- A ledger operation together with the wall-clock tick at which it runs. -/
inductive LedgerOp
  | registerEntry (plate : String) (now : Nat)
  | completeExit (plate : String) (now : Nat)
  deriving DecidableEq

def applyOp (db : ParkingDatabase) : LedgerOp → ParkingDatabase
  | .registerEntry p t => register_entry db p t
  | .completeExit p t => (complete_exit db p t).1

def runOps (ops : List LedgerOp) (db : ParkingDatabase) : ParkingDatabase :=
  ops.foldl applyOp db

lemma mostRecent_eq_none_iff (l : List SessionRow) :
    mostRecent l = none ↔ l = [] := by
  cases l with
  | nil => simp [mostRecent]
  | cons r rs =>
    simp only [mostRecent]
    cases h : mostRecent rs with
    | none => simp
    | some b =>
      constructor
      · intro hc
        by_cases hlt : b.entryTime < r.entryTime <;> simp [hlt] at hc
      · intro hc
        exact absurd hc (by simp)

lemma get_active_session_eq_none_iff (db : ParkingDatabase) (p : String) :
    get_active_session db p = none ↔ countInside db p = 0 := by
  unfold get_active_session countInside
  rw [mostRecent_eq_none_iff, List.length_eq_zero]

lemma countInside_register_entry_of_none (db : ParkingDatabase) (p : String)
    (t : Nat) (h : get_active_session db p = none) :
    countInside (register_entry db p t) p = 1 := by
  have hc : countInside db p = 0 := (get_active_session_eq_none_iff db p).mp h
  unfold register_entry
  rw [h]
  simp only [Option.isSome_none, Bool.false_eq_true, if_false]
  unfold countInside at hc ⊢
  simp only [List.filter_append, List.length_append, hc.symm]
  rw [List.length_eq_zero.mp hc]
  simp [isActiveRow]

lemma register_entry_of_some (db : ParkingDatabase) (p : String) (t : Nat)
    (h : (get_active_session db p).isSome) :
    register_entry db p t = db := by
  unfold register_entry
  rw [if_pos h]

lemma get_active_session_register_entry_isSome (db : ParkingDatabase)
    (p : String) (t : Nat) :
    (get_active_session (register_entry db p t) p).isSome := by
  by_cases h : (get_active_session db p).isSome
  · rw [register_entry_of_some db p t h]; exact h
  · have hn : get_active_session db p = none := by
      cases hh : get_active_session db p with
      | none => rfl
      | some r => rw [hh] at h; simp at h
    have h1 := countInside_register_entry_of_none db p t hn
    cases hh : get_active_session (register_entry db p t) p with
    | none =>
      have := (get_active_session_eq_none_iff _ p).mp hh
      omega
    | some r => simp

/-- `register_entry` is idempotent: the second consecutive call for the
same plate leaves the database untouched. -/
lemma register_entry_idem (db : ParkingDatabase) (p : String) (t t' : Nat) :
    register_entry (register_entry db p t) p t' = register_entry db p t :=
  register_entry_of_some _ p t' (get_active_session_register_entry_isSome db p t)

lemma countInside_le_of_map_deactivate (c p : String) (rows : List SessionRow)
    (f : SessionRow → SessionRow)
    (hf : ∀ r, isActiveRow c p (f r) = true → isActiveRow c p r = true) :
    (rows.map f |>.filter (isActiveRow c p)).length ≤
      (rows.filter (isActiveRow c p)).length := by
  induction rows with
  | nil => simp
  | cons r rs ih =>
    simp only [List.map_cons, List.filter_cons]
    by_cases h1 : isActiveRow c p (f r) = true
    · rw [if_pos h1, if_pos (hf r h1)]
      simpa using Nat.succ_le_succ ih
    · rw [if_neg h1]
      by_cases h2 : isActiveRow c p r = true
      · rw [if_pos h2]
        exact Nat.le_succ_of_le ih
      · rw [if_neg h2]; exact ih

lemma countInside_complete_exit_le (db : ParkingDatabase) (p q : String)
    (t : Nat) : countInside (complete_exit db q t).1 p ≤ countInside db p := by
  unfold complete_exit
  cases h : get_active_session db q with
  | none => simp
  | some row =>
    simp only
    unfold countInside
    simp only
    apply countInside_le_of_map_deactivate
    intro r hr
    by_cases hid : r.id = row.id
    · rw [if_pos hid] at hr
      unfold isActiveRow at hr
      simp at hr
    · rwa [if_neg hid] at hr

lemma countInside_register_entry_le (db : ParkingDatabase) (p q : String)
    (t : Nat) (h : countInside db p ≤ 1) :
    countInside (register_entry db q t) p ≤ 1 := by
  by_cases hs : (get_active_session db q).isSome
  · rw [register_entry_of_some db q t hs]; exact h
  · have hn : get_active_session db q = none := by
      cases hh : get_active_session db q with
      | none => rfl
      | some r => rw [hh] at hs; simp at hs
    have hq : countInside db q = 0 := (get_active_session_eq_none_iff db q).mp hn
    unfold register_entry
    rw [hn]
    simp only [Option.isSome_none, Bool.false_eq_true, if_false]
    unfold countInside at h hq ⊢
    simp only [List.filter_append, List.length_append]
    by_cases hpq : p = q
    · subst hpq
      rw [List.length_eq_zero.mp hq]
      simp [isActiveRow]
    · have : isActiveRow db.carParkId p
          { id := db.nextId, plate := q, carParkId := db.carParkId,
            entryTime := t, exitTime := none, status := "inside" } = false := by
        unfold isActiveRow
        simp only
        have : (q == p) = false := by
          simp [beq_eq_false_iff_ne]
          exact fun hh => hpq hh.symm
        simp [this]
      simp [this]
      exact h

lemma countInside_applyOp_le (db : ParkingDatabase) (op : LedgerOp)
    (p : String) (h : countInside db p ≤ 1) :
    countInside (applyOp db op) p ≤ 1 := by
  cases op with
  | registerEntry q t => exact countInside_register_entry_le db p q t h
  | completeExit q t =>
    exact le_trans (countInside_complete_exit_le db p q t) h

lemma countInside_runOps_le (ops : List LedgerOp) (db : ParkingDatabase)
    (p : String) (h : countInside db p ≤ 1) :
    countInside (runOps ops db) p ≤ 1 := by
  induction ops generalizing db with
  | nil => exact h
  | cons op ops ih =>
    exact ih (applyOp db op) (countInside_applyOp_le db op p h)

lemma countInside_register_entry_twice (db : ParkingDatabase) (p : String)
    (t t' : Nat) (h : countInside db p ≤ 1) :
    countInside (register_entry (register_entry db p t) p t') p = 1 := by
  rw [register_entry_idem]
  by_cases hs : (get_active_session db p).isSome
  · rw [register_entry_of_some db p t hs]
    have hn : countInside db p ≠ 0 := by
      intro h0
      rw [(get_active_session_eq_none_iff db p).mpr h0] at hs
      simp at hs
    omega
  · have hn : get_active_session db p = none := by
      cases hh : get_active_session db p with
      | none => rfl
      | some r => rw [hh] at hs; simp at hs
    exact countInside_register_entry_of_none db p t hn

/-- C1: after any sequence of ledger operations started from a fresh
database, each plate has at most one `'inside'` row; `register_entry`
creates a row only when `get_active_session` returns `none`, so a second
consecutive call changes nothing and two consecutive calls leave exactly
one `'inside'` row. -/
theorem registerEntry_idempotent_atMostOneInside (ops : List LedgerOp)
    (cid p : String) (t t' : Nat) :
    countInside (runOps ops (initDB cid)) p ≤ 1
    ∧ ((get_active_session (runOps ops (initDB cid)) p).isSome →
        register_entry (runOps ops (initDB cid)) p t = runOps ops (initDB cid))
    ∧ register_entry (register_entry (runOps ops (initDB cid)) p t) p t' =
        register_entry (runOps ops (initDB cid)) p t
    ∧ countInside
        (register_entry (register_entry (runOps ops (initDB cid)) p t) p t') p = 1 := by
  have h0 : countInside (initDB cid) p ≤ 1 := by simp [countInside, initDB]
  have hinv := countInside_runOps_le ops (initDB cid) p h0
  refine ⟨hinv, ?_, register_entry_idem _ p t t', ?_⟩
  · intro hs
    exact register_entry_of_some _ p t hs
  · exact countInside_register_entry_twice _ p t t' hinv

theorem registerEntry_idempotent_atMostOneInside_witness :
    countInside (runOps [.registerEntry "ABC-1" 0] (initDB "lot-01")) "ABC-1" ≤ 1
    ∧ register_entry (runOps [.registerEntry "ABC-1" 0] (initDB "lot-01")) "ABC-1" 1 =
        runOps [.registerEntry "ABC-1" 0] (initDB "lot-01")
    ∧ register_entry
        (register_entry (runOps [.registerEntry "ABC-1" 0] (initDB "lot-01")) "ABC-1" 1)
        "ABC-1" 2 =
        register_entry (runOps [.registerEntry "ABC-1" 0] (initDB "lot-01")) "ABC-1" 1
    ∧ countInside
        (register_entry
          (register_entry (runOps [.registerEntry "ABC-1" 0] (initDB "lot-01")) "ABC-1" 1)
          "ABC-1" 2) "ABC-1" = 1 :=
  ⟨(registerEntry_idempotent_atMostOneInside [.registerEntry "ABC-1" 0] "lot-01" "ABC-1" 1 2).1,
   (registerEntry_idempotent_atMostOneInside [.registerEntry "ABC-1" 0] "lot-01" "ABC-1" 1 2).2.1
     (by decide),
   (registerEntry_idempotent_atMostOneInside [.registerEntry "ABC-1" 0] "lot-01" "ABC-1" 1 2).2.2.1,
   (registerEntry_idempotent_atMostOneInside [.registerEntry "ABC-1" 0] "lot-01" "ABC-1" 1 2).2.2.2⟩

/-- C8: `complete_exit` for a plate with no `'inside'` session reports
`false` and leaves the ledger entirely unchanged (no row created, no row
modified). -/
theorem completeExit_noSession_noop (db : ParkingDatabase) (p : String)
    (now : Nat) (h : countInside db p = 0) :
    complete_exit db p now = (db, false) := by
  unfold complete_exit
  rw [(get_active_session_eq_none_iff db p).mpr h]

theorem completeExit_noSession_noop_witness :
    countInside (initDB "lot-01") "ABC-1" = 0
    ∧ complete_exit (initDB "lot-01") "ABC-1" 5 = (initDB "lot-01", false) :=
  ⟨by decide, completeExit_noSession_noop (initDB "lot-01") "ABC-1" 5 (by decide)⟩

/-- `ParkingLotTracker` state (`parkinglot_tracker.py`).  The lat/lng
registration coordinates are floating-point presentation data never read
by any operation and are omitted. -/
structure ParkingLotTracker where
  parkId : String
  maxCapacity : Int
  currentOccupancy : Int
  registered : Bool
  bookings : List String
  deriving DecidableEq

/-- `ParkingLotTracker.__init__`: occupancy 0, not registered, no bookings. -/
def initTracker (parkId : String) (maxCapacity : Int) : ParkingLotTracker :=
  { parkId := parkId, maxCapacity := maxCapacity, currentOccupancy := 0,
    registered := false, bookings := [] }

/-- The clamping prologue of `update_occupancy`: below 0 is set to 0,
above capacity is capped at capacity. -/
def clampOccupancy (t : ParkingLotTracker) (n : Int) : Int :=
  if n < 0 then 0
  else if n > t.maxCapacity then t.maxCapacity
  else n

/-- `ParkingLotTracker.update_occupancy`: clamp, store if changed, then
always send `self.current_occupancy` to the cloud.  The second component
is the value handed to `send_occupancy_update` (a send happens on every
call). -/
def update_occupancy (t : ParkingLotTracker) (new_occupancy : Int) :
    ParkingLotTracker × Int :=
  let n := clampOccupancy t new_occupancy
  let t' := if n = t.currentOccupancy then t else { t with currentOccupancy := n }
  (t', t'.currentOccupancy)

/-- `increment_occupancy`: car entered. -/
def increment_occupancy (t : ParkingLotTracker) : ParkingLotTracker × Int :=
  update_occupancy t (t.currentOccupancy + 1)

/-- `decrement_occupancy`: car exited. -/
def decrement_occupancy (t : ParkingLotTracker) : ParkingLotTracker × Int :=
  update_occupancy t (t.currentOccupancy - 1)

def has_booking (t : ParkingLotTracker) (license_plate : String) : Bool :=
  t.bookings.contains license_plate

/-- `add_booking`: record the booking and push occupancy + 1, only if the
plate is not already booked (`none` = no cloud send happened). -/
def add_booking (t : ParkingLotTracker) (license_plate : String) :
    ParkingLotTracker × Option Int :=
  if has_booking t license_plate then (t, none)
  else
    let t1 := { t with bookings := license_plate :: t.bookings }
    let r := update_occupancy t1 (t1.currentOccupancy + 1)
    (r.1, some r.2)

/-- `consume_booking`: `self._bookings.discard(plate)` — remove the
booking, occupancy untouched. -/
def consume_booking (t : ParkingLotTracker) (license_plate : String) :
    ParkingLotTracker :=
  { t with bookings := t.bookings.filter fun q => q != license_plate }

/-- `cancel_booking`: only if a booking exists, consume it and push
occupancy - 1; otherwise log and change nothing. -/
def cancel_booking (t : ParkingLotTracker) (license_plate : String) :
    ParkingLotTracker × Option Int :=
  if has_booking t license_plate then
    let t1 := consume_booking t license_plate
    let r := update_occupancy t1 (t1.currentOccupancy - 1)
    (r.1, some r.2)
  else (t, none)

/-- `is_full`. -/
def is_full (t : ParkingLotTracker) : Bool :=
  t.currentOccupancy ≥ t.maxCapacity

lemma contains_filter_bne (l : List String) (p : String) :
    (l.filter fun q => q != p).contains p = false := by
  induction l with
  | nil => rfl
  | cons a l ih =>
    simp only [List.filter_cons]
    by_cases h : a = p
    · subst h
      simp only [bne_self_eq_false, Bool.false_eq_true, if_false]
      exact ih
    · have hne : (a != p) = true := bne_iff_ne.mpr h
      rw [if_pos hne]
      simp only [List.contains_cons]
      have hb : (p == a) = false := beq_eq_false_iff_ne.mpr fun hh => h hh.symm
      simp [hb, ih]

lemma has_booking_consume_booking (t : ParkingLotTracker) (p : String) :
    has_booking (consume_booking t p) p = false := by
  unfold has_booking consume_booking
  exact contains_filter_bne t.bookings p

/-- The OccupancyTracker invariant. -/
def occInRange (t : ParkingLotTracker) : Prop :=
  0 ≤ t.currentOccupancy ∧ t.currentOccupancy ≤ t.maxCapacity

lemma clampOccupancy_inRange (t : ParkingLotTracker) (n : Int)
    (hmax : 0 ≤ t.maxCapacity) :
    0 ≤ clampOccupancy t n ∧ clampOccupancy t n ≤ t.maxCapacity := by
  unfold clampOccupancy
  split_ifs <;> omega

lemma update_occupancy_occ (t : ParkingLotTracker) (n : Int) :
    (update_occupancy t n).1.currentOccupancy = clampOccupancy t n ∧
      (update_occupancy t n).2 = clampOccupancy t n ∧
      (update_occupancy t n).1.maxCapacity = t.maxCapacity ∧
      (update_occupancy t n).1.bookings = t.bookings := by
  unfold update_occupancy
  by_cases h : clampOccupancy t n = t.currentOccupancy <;> simp [h]

lemma update_occupancy_inRange (t : ParkingLotTracker) (n : Int)
    (hmax : 0 ≤ t.maxCapacity) : occInRange (update_occupancy t n).1 := by
  have h := update_occupancy_occ t n
  have hc := clampOccupancy_inRange t n hmax
  unfold occInRange
  rw [h.1, h.2.2.1]
  exact hc

/-- C4: every occupancy-changing operation preserves
`0 ≤ currentOccupancy ≤ maxCapacity`; an out-of-range request is clamped
into range, and `update_occupancy` transmits the (clamped) stored value
to the cloud on every call — it is never silently dropped. -/
theorem occupancy_invariant_preserved (t : ParkingLotTracker) (n : Int)
    (p : String) (hmax : 0 ≤ t.maxCapacity) (hinv : occInRange t) :
    occInRange (update_occupancy t n).1
    ∧ (update_occupancy t n).2 = clampOccupancy t n
    ∧ (update_occupancy t n).1.currentOccupancy = clampOccupancy t n
    ∧ occInRange (increment_occupancy t).1
    ∧ occInRange (decrement_occupancy t).1
    ∧ occInRange (add_booking t p).1
    ∧ occInRange (cancel_booking t p).1 := by
  have hu := update_occupancy_occ t n
  refine ⟨update_occupancy_inRange t n hmax, hu.2.1, hu.1, ?_, ?_, ?_, ?_⟩
  · exact update_occupancy_inRange t _ hmax
  · exact update_occupancy_inRange t _ hmax
  · unfold add_booking
    by_cases h : has_booking t p = true
    · simpa [h] using hinv
    · simp only [h, Bool.false_eq_true, if_false]
      exact update_occupancy_inRange _ _ hmax
  · unfold cancel_booking
    by_cases h : has_booking t p = true
    · simp only [h, if_true]
      exact update_occupancy_inRange _ _ hmax
    · simpa [h] using hinv

theorem occupancy_invariant_preserved_witness :
    (0 : Int) ≤ (initTracker "lot-01" 50).maxCapacity
    ∧ occInRange (initTracker "lot-01" 50)
    ∧ (occInRange (update_occupancy (initTracker "lot-01" 50) (-3)).1
       ∧ (update_occupancy (initTracker "lot-01" 50) (-3)).2 =
           clampOccupancy (initTracker "lot-01" 50) (-3)
       ∧ (update_occupancy (initTracker "lot-01" 50) (-3)).1.currentOccupancy =
           clampOccupancy (initTracker "lot-01" 50) (-3)
       ∧ occInRange (increment_occupancy (initTracker "lot-01" 50)).1
       ∧ occInRange (decrement_occupancy (initTracker "lot-01" 50)).1
       ∧ occInRange (add_booking (initTracker "lot-01" 50) "XYZ-9").1
       ∧ occInRange (cancel_booking (initTracker "lot-01" 50) "XYZ-9").1) :=
  ⟨by decide, ⟨by decide, by decide⟩,
    occupancy_invariant_preserved (initTracker "lot-01" 50) (-3) "XYZ-9"
      (by decide) ⟨by decide, by decide⟩⟩

/-- C5: `cancel_booking` for a plate with no booking is a no-op —
unconditionally, for every tracker state including an empty lot at
occupancy 0: the tracker is unchanged and no cloud send happens.  When
a booking exists (and the occupancy invariant holds, so the clamp is
inactive) it removes the booking and decrements occupancy by exactly
one. -/
theorem cancelBooking_noBooking_noop (t : ParkingLotTracker) (p : String) :
    (has_booking t p = false → cancel_booking t p = (t, none))
    ∧ (has_booking t p = true → 1 ≤ t.currentOccupancy →
        t.currentOccupancy ≤ t.maxCapacity →
        (cancel_booking t p).1.currentOccupancy = t.currentOccupancy - 1
        ∧ has_booking (cancel_booking t p).1 p = false
        ∧ (cancel_booking t p).2 = some (t.currentOccupancy - 1)) := by
  constructor
  · intro h
    unfold cancel_booking
    simp [h]
  · intro h hpos hmax
    unfold cancel_booking
    simp only [h, if_true]
    have hu := update_occupancy_occ (consume_booking t p)
      ((consume_booking t p).currentOccupancy - 1)
    have hc : clampOccupancy (consume_booking t p)
        ((consume_booking t p).currentOccupancy - 1) =
        t.currentOccupancy - 1 := by
      unfold clampOccupancy consume_booking
      simp only
      split_ifs <;> omega
    refine ⟨?_, ?_, ?_⟩
    · rw [hu.1, hc]
    · unfold has_booking
      rw [hu.2.2.2]
      unfold consume_booking
      simp
    · rw [hu.2.1, hc]

theorem cancelBooking_noBooking_noop_witness :
    cancel_booking (initTracker "lot-01" 50) "ABC-1" = (initTracker "lot-01" 50, none)
    ∧ ((cancel_booking (add_booking (initTracker "lot-01" 50) "XYZ-9").1 "XYZ-9").1.currentOccupancy =
          (add_booking (initTracker "lot-01" 50) "XYZ-9").1.currentOccupancy - 1
       ∧ has_booking
           (cancel_booking (add_booking (initTracker "lot-01" 50) "XYZ-9").1 "XYZ-9").1
           "XYZ-9" = false
       ∧ (cancel_booking (add_booking (initTracker "lot-01" 50) "XYZ-9").1 "XYZ-9").2 =
           some ((add_booking (initTracker "lot-01" 50) "XYZ-9").1.currentOccupancy - 1)) :=
  ⟨(cancelBooking_noBooking_noop (initTracker "lot-01" 50) "ABC-1").1 (by decide),
   (cancelBooking_noBooking_noop (add_booking (initTracker "lot-01" 50) "XYZ-9").1
      "XYZ-9").2 (by decide) (by decide) (by decide)⟩

/-- Outcomes of the remote cloud calls an event handling may perform.
`true` / `some _` means the HTTP call returns normally; `false` / `none`
means it raises (connection error or `raise_for_status`). -/
structure CloudEnv where
  paymentEnterOk : Bool
  occupancyPushOk : Bool
  paymentCheck : Option (Bool × Int)
  paymentExitOk : Bool
  deriving DecidableEq

/-- Observable outcome of one `checkpoint_handler` call in `server.py`:
final ledger and tracker, whether `open_barrier` was commanded, whether
an exception escaped the handler, whether `complete_exit` ran, the value
(if any) handed to `send_occupancy_update`, and whether `payment_exit`
was called. -/
structure HandlerResult where
  db : ParkingDatabase
  tracker : ParkingLotTracker
  barrierOpened : Bool
  raised : Bool
  completedExit : Bool
  occupancySent : Option Int
  paymentExitCalled : Bool
  deriving DecidableEq

/-- `id_.split("_")[0]` — everything before the first underscore. -/
def checkpointTypeOf (id_ : String) : String :=
  String.mk (id_.data.takeWhile fun c => c != '_')

/-- `checkpoint_handler` of `server.py`.  Faithful points: the
`payment_car_enter`, `payment_check` and `payment_exit` calls are
wrapped in `try/except` (a failing `payment_check` is treated as
unpaid), but `tracker.increment_occupancy()` / `decrement_occupancy()`
are NOT — an exception raised by the occupancy push escapes the handler
(`raised := true`) before `open_barrier` is reached.  The tracker's
local state is mutated before its cloud send, so it is updated even
when the send raises. -/
def checkpoint_handler (plate_text id_ : String) (env : CloudEnv)
    (db : ParkingDatabase) (tracker : ParkingLotTracker) (now : Nat) :
    HandlerResult :=
  if checkpointTypeOf id_ = "entry" then
    match get_active_session db plate_text with
    | some _ =>
      { db := db, tracker := tracker, barrierOpened := true, raised := false,
        completedExit := false, occupancySent := none, paymentExitCalled := false }
    | none =>
      let db1 := register_entry db plate_text now
      -- payment_car_enter: try/except, both outcomes continue
      if has_booking tracker plate_text then
        let tr1 := consume_booking tracker plate_text
        { db := db1, tracker := tr1, barrierOpened := true, raised := false,
          completedExit := false, occupancySent := none, paymentExitCalled := false }
      else
        let r := increment_occupancy tracker
        if env.occupancyPushOk then
          { db := db1, tracker := r.1, barrierOpened := true, raised := false,
            completedExit := false, occupancySent := some r.2,
            paymentExitCalled := false }
        else
          { db := db1, tracker := r.1, barrierOpened := false, raised := true,
            completedExit := false, occupancySent := some r.2,
            paymentExitCalled := false }
  else if checkpointTypeOf id_ = "exit" then
    let paid := match env.paymentCheck with
      | some status => status.1
      | none => false
    if paid = false then
      { db := db, tracker := tracker, barrierOpened := false, raised := false,
        completedExit := false, occupancySent := none, paymentExitCalled := false }
    else
      match get_active_session db plate_text with
      | none =>
        { db := db, tracker := tracker, barrierOpened := true, raised := false,
          completedExit := false, occupancySent := none, paymentExitCalled := false }
      | some _ =>
        let db1 := (complete_exit db plate_text now).1
        let r := decrement_occupancy tracker
        if env.occupancyPushOk then
          -- payment_exit: try/except, both outcomes continue
          { db := db1, tracker := r.1, barrierOpened := true, raised := false,
            completedExit := true, occupancySent := some r.2,
            paymentExitCalled := true }
        else
          { db := db1, tracker := r.1, barrierOpened := false, raised := true,
            completedExit := true, occupancySent := some r.2,
            paymentExitCalled := false }
  else
    { db := db, tracker := tracker, barrierOpened := false, raised := false,
      completedExit := false, occupancySent := none, paymentExitCalled := false }

/-- C2 (code bug): on an entry event for a plate with no booking, a
raising occupancy push escapes `checkpoint_handler` before
`open_barrier`: the exception propagates (`raised = true`) and the
barrier is never commanded, although the ledger did advance — contrary
to the spec's "no error in billing/occupancy communication may
propagate to prevent a barrier decision" (`server_localTest.py` wraps
the very same call in `try/except`). -/
theorem occupancyPushFailure_blocks_barrier :
    (checkpoint_handler "ABC-1" "entry_0"
        { paymentEnterOk := true, occupancyPushOk := false,
          paymentCheck := none, paymentExitOk := true }
        (initDB "lot-01") (initTracker "lot-01" 50) 0).raised = true
    ∧ (checkpoint_handler "ABC-1" "entry_0"
        { paymentEnterOk := true, occupancyPushOk := false,
          paymentCheck := none, paymentExitOk := true }
        (initDB "lot-01") (initTracker "lot-01" 50) 0).barrierOpened = false
    ∧ countInside (checkpoint_handler "ABC-1" "entry_0"
        { paymentEnterOk := true, occupancyPushOk := false,
          paymentCheck := none, paymentExitOk := true }
        (initDB "lot-01") (initTracker "lot-01" 50) 0).db "ABC-1" = 1 := by
  refine ⟨?_, ?_, ?_⟩ <;> decide

/-- C3: an exit event whose payment check reports unpaid — or whose
payment-check call raises, which the handler turns into unpaid — is
denied: the handler returns with the ledger and tracker untouched, no
exit completed, no occupancy send, no payment-exit call, and the
barrier not commanded. -/
theorem exitUnpaid_denied (plate id_ : String) (env : CloudEnv)
    (db : ParkingDatabase) (tracker : ParkingLotTracker) (now : Nat)
    (hty : checkpointTypeOf id_ = "exit")
    (hunpaid : env.paymentCheck = none ∨ ∃ price, env.paymentCheck = some (false, price)) :
    checkpoint_handler plate id_ env db tracker now =
      { db := db, tracker := tracker, barrierOpened := false, raised := false,
        completedExit := false, occupancySent := none, paymentExitCalled := false } := by
  unfold checkpoint_handler
  rw [hty]
  rcases hunpaid with h | ⟨price, h⟩ <;> simp [h]

theorem exitUnpaid_denied_witness :
    checkpointTypeOf "exit_0" = "exit"
    ∧ checkpoint_handler "ABC-1" "exit_0"
        { paymentEnterOk := true, occupancyPushOk := true,
          paymentCheck := some (false, 250), paymentExitOk := true }
        (initDB "lot-01") (initTracker "lot-01" 50) 3 =
      { db := initDB "lot-01", tracker := initTracker "lot-01" 50,
        barrierOpened := false, raised := false, completedExit := false,
        occupancySent := none, paymentExitCalled := false } :=
  ⟨by decide,
    exitUnpaid_denied "ABC-1" "exit_0"
      { paymentEnterOk := true, occupancyPushOk := true,
        paymentCheck := some (false, 250), paymentExitOk := true }
      (initDB "lot-01") (initTracker "lot-01" 50) 3 (by decide)
      (Or.inr ⟨250, rfl⟩)⟩

/-- C6: an entry event for a plate holding a booking and no active
session consumes the booking, leaves `currentOccupancy` unchanged,
performs no occupancy send, creates exactly one `'inside'` row, and
opens the barrier. -/
theorem bookedEntry_consumesBooking (plate id_ : String) (env : CloudEnv)
    (db : ParkingDatabase) (tracker : ParkingLotTracker) (now : Nat)
    (hty : checkpointTypeOf id_ = "entry")
    (hactive : get_active_session db plate = none)
    (hbook : has_booking tracker plate = true) :
    (checkpoint_handler plate id_ env db tracker now).tracker.currentOccupancy =
        tracker.currentOccupancy
    ∧ has_booking (checkpoint_handler plate id_ env db tracker now).tracker plate = false
    ∧ countInside (checkpoint_handler plate id_ env db tracker now).db plate = 1
    ∧ (checkpoint_handler plate id_ env db tracker now).barrierOpened = true
    ∧ (checkpoint_handler plate id_ env db tracker now).occupancySent = none := by
  have hcount := countInside_register_entry_of_none db plate now hactive
  have hcb : has_booking (consume_booking tracker plate) plate = false :=
    has_booking_consume_booking tracker plate
  unfold checkpoint_handler
  rw [hty]
  simp only [hactive, hbook]
  refine ⟨?_, ?_, ?_, ?_, ?_⟩
  · simp [consume_booking]
  · simpa [consume_booking] using hcb
  · simpa using hcount
  · simp
  · simp

theorem bookedEntry_consumesBooking_witness :
    checkpointTypeOf "entry_0" = "entry"
    ∧ get_active_session (initDB "lot-01") "XYZ-9" = none
    ∧ has_booking (add_booking (initTracker "lot-01" 50) "XYZ-9").1 "XYZ-9" = true
    ∧ ((checkpoint_handler "XYZ-9" "entry_0"
          { paymentEnterOk := true, occupancyPushOk := true,
            paymentCheck := none, paymentExitOk := true }
          (initDB "lot-01") (add_booking (initTracker "lot-01" 50) "XYZ-9").1
          7).tracker.currentOccupancy =
        (add_booking (initTracker "lot-01" 50) "XYZ-9").1.currentOccupancy
      ∧ has_booking (checkpoint_handler "XYZ-9" "entry_0"
          { paymentEnterOk := true, occupancyPushOk := true,
            paymentCheck := none, paymentExitOk := true }
          (initDB "lot-01") (add_booking (initTracker "lot-01" 50) "XYZ-9").1
          7).tracker "XYZ-9" = false
      ∧ countInside (checkpoint_handler "XYZ-9" "entry_0"
          { paymentEnterOk := true, occupancyPushOk := true,
            paymentCheck := none, paymentExitOk := true }
          (initDB "lot-01") (add_booking (initTracker "lot-01" 50) "XYZ-9").1
          7).db "XYZ-9" = 1
      ∧ (checkpoint_handler "XYZ-9" "entry_0"
          { paymentEnterOk := true, occupancyPushOk := true,
            paymentCheck := none, paymentExitOk := true }
          (initDB "lot-01") (add_booking (initTracker "lot-01" 50) "XYZ-9").1
          7).barrierOpened = true
      ∧ (checkpoint_handler "XYZ-9" "entry_0"
          { paymentEnterOk := true, occupancyPushOk := true,
            paymentCheck := none, paymentExitOk := true }
          (initDB "lot-01") (add_booking (initTracker "lot-01" 50) "XYZ-9").1
          7).occupancySent = none) :=
  ⟨by decide, by decide, by decide,
    bookedEntry_consumesBooking "XYZ-9" "entry_0"
      { paymentEnterOk := true, occupancyPushOk := true,
        paymentCheck := none, paymentExitOk := true }
      (initDB "lot-01") (add_booking (initTracker "lot-01" 50) "XYZ-9").1 7
      (by decide) (by decide) (by decide)⟩

/-- C9: an exit event for a paid plate with no active `'inside'` session
fails open: the barrier is commanded while the ledger and tracker are
untouched — no `complete_exit`, no occupancy send, no `payment_exit`. -/
theorem paidExit_noSession_failOpen (plate id_ : String) (env : CloudEnv)
    (db : ParkingDatabase) (tracker : ParkingLotTracker) (now : Nat)
    (price : Int)
    (hty : checkpointTypeOf id_ = "exit")
    (hpaid : env.paymentCheck = some (true, price))
    (hactive : get_active_session db plate = none) :
    checkpoint_handler plate id_ env db tracker now =
      { db := db, tracker := tracker, barrierOpened := true, raised := false,
        completedExit := false, occupancySent := none, paymentExitCalled := false } := by
  unfold checkpoint_handler
  rw [hty]
  simp [hpaid, hactive]

theorem paidExit_noSession_failOpen_witness :
    checkpointTypeOf "exit_0" = "exit"
    ∧ get_active_session (initDB "lot-01") "ABC-1" = none
    ∧ checkpoint_handler "ABC-1" "exit_0"
        { paymentEnterOk := true, occupancyPushOk := true,
          paymentCheck := some (true, 0), paymentExitOk := true }
        (initDB "lot-01") (initTracker "lot-01" 50) 9 =
      { db := initDB "lot-01", tracker := initTracker "lot-01" 50,
        barrierOpened := true, raised := false, completedExit := false,
        occupancySent := none, paymentExitCalled := false } :=
  ⟨by decide, by decide,
    paidExit_noSession_failOpen "ABC-1" "exit_0"
      { paymentEnterOk := true, occupancyPushOk := true,
        paymentCheck := some (true, 0), paymentExitOk := true }
      (initDB "lot-01") (initTracker "lot-01" 50) 9 0 (by decide) rfl (by decide)⟩

/-- C10: capacity is never enforced at entry.  With the lot already at
capacity (`is_full` true), an entry for a plate with no session and no
booking still creates the `'inside'` row and reaches the barrier; the
increment is clamped so occupancy stays exactly at `maxCapacity`. -/
theorem entry_neverBlockedByCapacity (plate id_ : String) (env : CloudEnv)
    (db : ParkingDatabase) (tracker : ParkingLotTracker) (now : Nat)
    (hty : checkpointTypeOf id_ = "entry")
    (hactive : get_active_session db plate = none)
    (hbook : has_booking tracker plate = false)
    (hfull : tracker.currentOccupancy = tracker.maxCapacity)
    (hmax : 0 ≤ tracker.maxCapacity)
    (hpush : env.occupancyPushOk = true) :
    countInside (checkpoint_handler plate id_ env db tracker now).db plate = 1
    ∧ (checkpoint_handler plate id_ env db tracker now).barrierOpened = true
    ∧ (checkpoint_handler plate id_ env db tracker now).tracker.currentOccupancy =
        tracker.maxCapacity
    ∧ is_full (checkpoint_handler plate id_ env db tracker now).tracker = true := by
  have hcount := countInside_register_entry_of_none db plate now hactive
  have hocc := update_occupancy_occ tracker (tracker.currentOccupancy + 1)
  have hclamp : clampOccupancy tracker (tracker.currentOccupancy + 1) =
      tracker.maxCapacity := by
    unfold clampOccupancy
    split_ifs <;> omega
  have htr : (increment_occupancy tracker).1.currentOccupancy = tracker.maxCapacity := by
    unfold increment_occupancy
    rw [hocc.1, hclamp]
  have hmax2 : (increment_occupancy tracker).1.maxCapacity = tracker.maxCapacity := by
    unfold increment_occupancy
    exact hocc.2.2.1
  have hfull2 : is_full (increment_occupancy tracker).1 = true := by
    unfold is_full
    rw [htr, hmax2]
    simp
  unfold checkpoint_handler
  rw [hty]
  simp [hactive, hbook, hpush, hcount, htr, hfull2]

theorem entry_neverBlockedByCapacity_witness :
    checkpointTypeOf "entry_0" = "entry"
    ∧ get_active_session (initDB "lot-01") "ABC-1" = none
    ∧ has_booking (initTracker "lot-01" 0) "ABC-1" = false
    ∧ (initTracker "lot-01" 0).currentOccupancy = (initTracker "lot-01" 0).maxCapacity
    ∧ (0 : Int) ≤ (initTracker "lot-01" 0).maxCapacity
    ∧ (countInside (checkpoint_handler "ABC-1" "entry_0"
          { paymentEnterOk := true, occupancyPushOk := true,
            paymentCheck := none, paymentExitOk := true }
          (initDB "lot-01") (initTracker "lot-01" 0) 4).db "ABC-1" = 1
       ∧ (checkpoint_handler "ABC-1" "entry_0"
          { paymentEnterOk := true, occupancyPushOk := true,
            paymentCheck := none, paymentExitOk := true }
          (initDB "lot-01") (initTracker "lot-01" 0) 4).barrierOpened = true
       ∧ (checkpoint_handler "ABC-1" "entry_0"
          { paymentEnterOk := true, occupancyPushOk := true,
            paymentCheck := none, paymentExitOk := true }
          (initDB "lot-01") (initTracker "lot-01" 0) 4).tracker.currentOccupancy =
          (initTracker "lot-01" 0).maxCapacity
       ∧ is_full (checkpoint_handler "ABC-1" "entry_0"
          { paymentEnterOk := true, occupancyPushOk := true,
            paymentCheck := none, paymentExitOk := true }
          (initDB "lot-01") (initTracker "lot-01" 0) 4).tracker = true) :=
  ⟨by decide, by decide, by decide, by decide, by decide,
    entry_neverBlockedByCapacity "ABC-1" "entry_0"
      { paymentEnterOk := true, occupancyPushOk := true,
        paymentCheck := none, paymentExitOk := true }
      (initDB "lot-01") (initTracker "lot-01" 0) 4
      (by decide) (by decide) (by decide) (by decide) (by decide) rfl⟩

/-- What the NATS transport reports for a barrier request in
`server_localTest.py`'s `open_barrier`: a reply payload, "no responders
currently listening", a timeout, or another transport error. -/
inductive TransportOutcome
  | reply (data : String)
  | noResponders
  | timedOut
  | failed
  deriving DecidableEq

/-- The five distinct branches of `open_barrier` (each one a distinct
log line in the code). -/
inductive BarrierOutcome
  | Opened
  | Denied
  | Simulated
  | TimedOut
  | Error
  deriving DecidableEq

/-- `open_barrier` of `server_localTest.py`: `"done"` → success;
any other reply → failure; `NoRespondersError` → log "[BARRIER][SIM]"
and return `True` (the simulated success, not an exception); timeout or
other errors → failure.  First component is the returned `bool`, second
the branch taken. -/
def open_barrier (transport : TransportOutcome) : Bool × BarrierOutcome :=
  match transport with
  | .reply d => if d = "done" then (true, .Opened) else (false, .Denied)
  | .noResponders => (true, .Simulated)
  | .timedOut => (false, .TimedOut)
  | .failed => (false, .Error)

/-- State decision of `handle_checkpoint` in `server_localTest.py`:
final ledger, final tracker, and whether `open_barrier` is invoked.
Every `open_barrier` call in that handler is the last action of its
branch and its return value is never read, so the barrier transport
outcome cannot influence the ledger/tracker decision; it is threaded in
separately by `handle_checkpoint` below.  `cloudEnabled` stands for
`cloud_client and tracker` being available, `allowExitWithoutCloud`
for `ALLOW_EXIT_WITHOUT_CLOUD`.  The occupancy and payment calls on
this handler are all wrapped in `try/except`, so `env` failures never
abort it. -/
def handle_core (checkpointType plate : String)
    (cloudEnabled allowExitWithoutCloud : Bool) (env : CloudEnv)
    (db : ParkingDatabase) (tr : ParkingLotTracker) (now : Nat) :
    ParkingDatabase × ParkingLotTracker × Bool :=
  let plate := plate.trim
  if plate = "" then (db, tr, false)
  else if checkpointType = "entry" then
    match get_active_session db plate with
    | some _ => (db, tr, true)
    | none =>
      let db1 := register_entry db plate now
      if cloudEnabled then
        let tr1 :=
          if has_booking tr plate then consume_booking tr plate
          else (increment_occupancy tr).1
        (db1, tr1, true)
      else (db1, tr, true)
  else if checkpointType = "exit" then
    if cloudEnabled = false && allowExitWithoutCloud = false then (db, tr, false)
    else if cloudEnabled &&
        (match env.paymentCheck with
         | some status => status.1
         | none => false) = false then (db, tr, false)
    else
      match get_active_session db plate with
      | none => (db, tr, true)
      | some _ =>
        let db1 := (complete_exit db plate now).1
        let tr1 := if cloudEnabled then (decrement_occupancy tr).1 else tr
        (db1, tr1, true)
  else (db, tr, false)

/-- Observable outcome of `handle_checkpoint` in `server_localTest.py`:
final state plus the barrier call (if one was made) with its returned
`bool` and the branch `open_barrier` took. -/
structure LocalResult where
  db : ParkingDatabase
  tracker : ParkingLotTracker
  barrierCall : Option (Bool × BarrierOutcome)
  deriving DecidableEq

/-- `handle_checkpoint` of `server_localTest.py`: the state decision of
`handle_core` with the actual barrier interaction attached. -/
def handle_checkpoint (checkpointType barrierId plate : String)
    (transport : TransportOutcome) (cloudEnabled allowExitWithoutCloud : Bool)
    (env : CloudEnv) (db : ParkingDatabase) (tr : ParkingLotTracker)
    (now : Nat) : LocalResult :=
  match handle_core checkpointType plate cloudEnabled allowExitWithoutCloud env db tr now with
  | (db1, tr1, callsBarrier) =>
    { db := db1, tracker := tr1,
      barrierCall := if callsBarrier then some (open_barrier transport) else none }

/-- C7: when the transport reports no responder, `open_barrier` returns
normally with the distinct `Simulated` branch and the same success value
as an `Opened` reply; `handle_checkpoint` treats the two identically —
same final ledger, same tracker, a barrier call made in exactly the same
cases with the same success value. -/
theorem simulated_treated_as_opened (checkpointType barrierId plate : String)
    (cloudEnabled allowExitWithoutCloud : Bool) (env : CloudEnv)
    (db : ParkingDatabase) (tr : ParkingLotTracker) (now : Nat) :
    open_barrier .noResponders = (true, .Simulated)
    ∧ (open_barrier .noResponders).1 = (open_barrier (.reply "done")).1
    ∧ (handle_checkpoint checkpointType barrierId plate .noResponders
        cloudEnabled allowExitWithoutCloud env db tr now).db =
      (handle_checkpoint checkpointType barrierId plate (.reply "done")
        cloudEnabled allowExitWithoutCloud env db tr now).db
    ∧ (handle_checkpoint checkpointType barrierId plate .noResponders
        cloudEnabled allowExitWithoutCloud env db tr now).tracker =
      (handle_checkpoint checkpointType barrierId plate (.reply "done")
        cloudEnabled allowExitWithoutCloud env db tr now).tracker
    ∧ (handle_checkpoint checkpointType barrierId plate .noResponders
        cloudEnabled allowExitWithoutCloud env db tr now).barrierCall.map Prod.fst =
      (handle_checkpoint checkpointType barrierId plate (.reply "done")
        cloudEnabled allowExitWithoutCloud env db tr now).barrierCall.map Prod.fst := by
  refine ⟨rfl, by simp [open_barrier], ?_, ?_, ?_⟩ <;>
  · unfold handle_checkpoint
    rcases handle_core checkpointType plate cloudEnabled allowExitWithoutCloud
      env db tr now with ⟨db1, tr1, b⟩
    cases b <;> simp [open_barrier]
